import Mathlib

/-!
Verification of the PyTransit transit-model wrapper layer.

The repository's visible Python code is `src/src/mandelagol.py` (the
`MandelAgol` model facade: configuration validation, kernel dispatch and
interpolation-table ownership) and `src/pytransit/models/qpower2.py`
(the `QPower2Model` evaluation entry points).  The numerical kernels
(`ma.eval_uniform`, `ma.eval_quad`, `ma.eval_quad_ip`,
`ma.eval_chromosphere`, `ma.calculate_interpolation_tables`,
`qpower2_model`) and the orbit solver live in Fortran / numba modules
that are not part of the visible sources; where a property depends on
them they are modelled from the specification, with a doc comment
saying so.
-/

namespace PyTransit

/-! ### Configuration and dispatch, from `src/src/mandelagol.py` -/

/-- The list of supported model names,
`models = 'uniform quadratic interpolated_quadratic chromosphere'.split()`. -/
def models : List String :=
  ["uniform", "quadratic", "interpolated_quadratic", "chromosphere"]

/-- The constructor arguments of `MandelAgol.__init__` that take part in
validation and dispatch.  `lerp` stands for `kwargs.get('lerp', False)`. -/
structure MAConfig where
  nldc : ℕ
  interpolate : Bool
  lerp : Bool
  model : String
  klims : ℚ × ℚ
  nk : ℕ
  nz : ℕ
deriving DecidableEq, Repr

/-- The two `assert` failures of `MandelAgol.__init__`, kept distinguishable. -/
inductive ConfigError where
  | unknownModel (m : String)
  | badLDCount (n : ℕ)
deriving DecidableEq, Repr

/-- Modelled from the spec: `ma.calculate_interpolation_tables` is Fortran code
not under `src/`; per the spec the table is "built once per `(klims, nk, nz)`
configuration", so we record exactly that data. -/
structure InterpTable where
  kmin : ℚ
  kmax : ℚ
  nk : ℕ
  nz : ℕ
deriving DecidableEq, Repr

/-- Modelled from the spec: the table builder, determined by `(klims, nk, nz)`. -/
def calculate_interpolation_tables (kmin kmax : ℚ) (nk nz : ℕ) : InterpTable :=
  ⟨kmin, kmax, nk, nz⟩

/-- The value stored into `self._eval` by the constructor: one of the three
bound methods `_eval_chromosphere`, `_eval_uniform`, `_eval_quadratic`. -/
inductive Kernel where
  | uniform
  | chromosphere
  | quadratic
deriving DecidableEq, Repr

/-- The instance state produced by `MandelAgol.__init__` that evaluation
reads: the `self.interpolate` flag, the `self._eval` method, and the
interpolation table attributes (absent unless the table-building branch ran). -/
structure MAState where
  interpolate : Bool
  evalKernel : Kernel
  table : Option InterpTable
deriving DecidableEq, Repr

/-- `MandelAgol.__init__` (lines 32-64 of `src/src/mandelagol.py`):
the two asserts, `self.interpolate = interpolate or kwargs.get('lerp', False)`,
and the dispatch tree selecting `self._eval` and conditionally building the
interpolation table. -/
def MandelAgol.init (cfg : MAConfig) : Except ConfigError MAState :=
  if cfg.model ∉ models then .error (.unknownModel cfg.model)
  else if cfg.nldc ∉ ([0, 2] : List ℕ) then .error (.badLDCount cfg.nldc)
  else
    let interp := cfg.interpolate || cfg.lerp
    if cfg.model = "chromosphere" then
      .ok ⟨interp, .chromosphere, none⟩
    else if cfg.model = "uniform" ∨ cfg.nldc = 0 then
      .ok ⟨interp, .uniform, none⟩
    else
      let table :=
        if cfg.model = "interpolated_quadratic" ∨ interp = true then
          some (calculate_interpolation_tables cfg.klims.1 cfg.klims.2 cfg.nk cfg.nz)
        else none
      .ok ⟨interp, .quadratic, table⟩

/-- The kernel actually used at evaluation time.  `_eval_quadratic`
(lines 97-116) branches once more on `self.interpolate`, choosing between
`ma.eval_quad_ip` (interpolated) and `ma.eval_quad` (exact). -/
inductive EffectiveKernel where
  | uniform
  | chromosphere
  | quadExact
  | quadInterp
deriving DecidableEq, Repr

/-- The kernel an evaluation of a constructed model dispatches to. -/
def MAState.effectiveKernel (s : MAState) : EffectiveKernel :=
  match s.evalKernel with
  | .uniform => .uniform
  | .chromosphere => .chromosphere
  | .quadratic => if s.interpolate then .quadInterp else .quadExact

/-- A default configuration, matching the Python default arguments. -/
def defaultConfig : MAConfig :=
  ⟨2, false, false, "quadratic", (7/100, 13/100), 128, 256⟩

/-! ### The analytic kernels, modelled from the spec

The kernels `ma.eval_uniform`, `ma.eval_quad`, `ma.eval_quad_ip`,
`ma.eval_chromosphere` and the qpower2 kernel are Fortran / numba code
not under `src/`.  Per spec section 4.2 each kernel is a pure function
`flux(z, k, u, c)`, returns exactly `1.0` whenever `z ≥ 1 + k`
(no geometric overlap), and applies contamination dilution as the final
affine step `flux_observed = 1 − (1 − flux_model) × (1 − c)`.  The spec
gives the closed form of the interior branches only for the uniform
disk (circle–circle intersection area, normalized by stellar area,
clipped to `[0, 1]` occultation depth); for the quadratic, interpolated,
power-2 and chromosphere kernels the interior branch formulas are left
unspecified, so those kernels are parametrized by an arbitrary interior
function, and every theorem quantifies over it. -/

/-- Modelled from the spec: the final affine contamination-dilution step
`flux_observed = 1 − (1 − flux_model) × (1 − c)` applied by every kernel. -/
noncomputable def applyContamination (c fm : ℝ) : ℝ :=
  1 - (1 - fm) * (1 - c)

/-- Modelled from the spec: area of the intersection of a disk of radius `k`
with the unit stellar disk at center distance `z` (zero once `z ≥ 1 + k`). -/
noncomputable def circleOverlapArea (k z : ℝ) : ℝ :=
  if 1 + k ≤ z then 0
  else if z + k ≤ 1 then Real.pi * k ^ 2
  else if z + 1 ≤ k then Real.pi
  else k ^ 2 * Real.arccos ((z ^ 2 + k ^ 2 - 1) / (2 * z * k))
       + Real.arccos ((z ^ 2 + 1 - k ^ 2) / (2 * z))
       - Real.sqrt ((1 + k - z) * (z + k - 1) * (z + 1 - k) * (z + k + 1)) / 2

/-- Modelled from the spec: the uniform-disk kernel (`ma.eval_uniform`):
flux loss is the normalized circle–circle intersection area, clipped to
`[0, 1]` occultation depth, with contamination applied last. -/
noncomputable def uniformFlux (z k c : ℝ) : ℝ :=
  applyContamination c (1 - min 1 (max 0 (circleOverlapArea k z / Real.pi)))

/-- Modelled from the spec: the exact quadratic Mandel–Agol kernel
(`ma.eval_quad`).  The branch `z ≥ 1 + k` returns exactly `1`; the interior
piecewise elliptic-integral branches are not given by the spec and are
abstracted as `interior`. -/
noncomputable def quadFlux (interior : ℝ → ℝ → ℝ → ℝ → ℝ)
    (z k u1 u2 c : ℝ) : ℝ :=
  applyContamination c (if 1 + k ≤ z then 1 else interior z k u1 u2)

/-- Modelled from the spec: the interpolating quadratic kernel
(`ma.eval_quad_ip`), a bilinear table lookup abstracted as `lookup`;
per spec section 8 it too returns exactly `1` once `z ≥ 1 + k`. -/
noncomputable def quadFluxInterp (lookup : ℝ → ℝ → ℝ → ℝ → ℝ)
    (z k u1 u2 c : ℝ) : ℝ :=
  applyContamination c (if 1 + k ≤ z then 1 else lookup z k u1 u2)

/-- Modelled from the spec: the power-2 (Maxted & Gill) kernel, "valid across
the same z-branches as quadratic but with a different analytic form per
branch"; the interior branches are abstracted as `interior`. -/
noncomputable def qpower2Flux (interior : ℝ → ℝ → ℝ → ℝ → ℝ)
    (z k u1 u2 c : ℝ) : ℝ :=
  applyContamination c (if 1 + k ≤ z then 1 else interior z k u1 u2)

/-- Modelled from the spec: the chromosphere kernel (`ma.eval_chromosphere`),
"a uniform-disk-style evaluation restricted to eclipse geometry" that ignores
limb-darkening coefficients; interior abstracted as `interior`. -/
noncomputable def chromosphereFlux (interior : ℝ → ℝ → ℝ)
    (z k c : ℝ) : ℝ :=
  applyContamination c (if 1 + k ≤ z then 1 else interior z k)

/-! ### Exposure integrator (supersampling), modelled from the spec

The supersampling machinery lives in the `TransitModel` base class and the
Fortran kernels, not under `src/`.  Spec section 4.4: given an exposure
midpoint time, a duration and a subsample count `n ≥ 1`, generate `n`
evenly spaced sub-times spanning the exposure, evaluate the model at each,
and report the arithmetic mean; the spacing preserves the exposure
midpoint. -/

/-- Modelled from the spec: the `n` evenly spaced sub-times of an exposure
with midpoint `t` and duration `d`; sample `i` sits at
`t + d * ((i + 1/2) / n - 1/2)`, so the samples are centered on `t`. -/
noncomputable def subsampleTimes (t d : ℝ) (n : ℕ) : List ℝ :=
  (List.range n).map
    (fun i : ℕ => t + d * (((i : ℝ) + 1 / 2) / (n : ℝ) - 1 / 2))

/-- Modelled from the spec: the exposure integrator, the arithmetic mean of
the model over the sub-times of one exposure. -/
noncomputable def supersample (f : ℝ → ℝ) (t d : ℝ) (n : ℕ) : ℝ :=
  ((subsampleTimes t d n).map f).sum / (n : ℝ)

/-! ### Kepler solver, modelled from the spec

The orbit solver (`pytransit.orbits`) is not under `src/`.  Spec
section 4.1: Kepler's equation `M = E − e·sin(E)` is solved by
Newton–Raphson from a starting guess, iterated to a fixed tolerance or a
maximum iteration cap; failure to converge degrades to the best available
estimate rather than raising. -/

/-- Modelled from the spec: the residual of Kepler's equation,
`(E − e·sin E) − M`. -/
noncomputable def keplerResidual (M e E : ℝ) : ℝ :=
  E - e * Real.sin E - M

/-- Modelled from the spec: one Newton–Raphson step for Kepler's equation. -/
noncomputable def newtonStep (M e E : ℝ) : ℝ :=
  E - keplerResidual M e E / (1 - e * Real.cos E)

/-- Modelled from the spec: the bounded Newton iteration.  It stops as soon
as the residual is within `tol` and otherwise spends its iteration budget,
returning the last iterate. -/
noncomputable def keplerSolveAux (M e tol : ℝ) : ℕ → ℝ → ℝ
  | 0, E => E
  | n + 1, E =>
      if |keplerResidual M e E| ≤ tol then E
      else keplerSolveAux M e tol n (newtonStep M e E)

/-- Modelled from the spec: the Kepler solver, tolerance `1e-8`, iteration
cap 100, starting guess `E₀ = M`. -/
noncomputable def keplerSolve (M e : ℝ) : ℝ :=
  keplerSolveAux M e (1 / 100000000) 100 M

/-! ### `QPower2Model` evaluation entry points, from
`src/pytransit/models/qpower2.py`

The flux kernel `qpower2_model` (numba code, not under `src/`) is taken as
an arbitrary function `qmodel` of the time array, the parameter-vector
batch and the limb-darkening coefficients; both entry points guard on the
time array being set and apply `numpy.squeeze` to the kernel output. -/

/-- The `QPower2Model` instance state read by `evaluate_ps` / `evaluate_pv`:
only `self.time` decides the precondition; the remaining per-observation
arrays are bundled into the abstract kernel argument. -/
structure QP2State where
  time : Option (List ℝ)

/-- The failed `assert self.time is not None` of `evaluate_ps` /
`evaluate_pv`. -/
inductive EvalError where
  | notConfigured
deriving DecidableEq, Repr

/-- `numpy.squeeze` restricted to what the entry points need: a length-1
leading dimension collapses to its single row. -/
def squeeze (xss : List (List ℝ)) : List (List ℝ) ⊕ List ℝ :=
  match xss with
  | [xs] => Sum.inr xs
  | _ => Sum.inl xss

/-- `QPower2Model.evaluate_pv` (lines 52-55 of
`src/pytransit/models/qpower2.py`): assert the time array is set, run the
kernel on the parameter-vector batch, squeeze. -/
def QP2State.evaluate_pv
    (qmodel : List ℝ → List (List ℝ) → List ℝ → List (List ℝ))
    (s : QP2State) (pvp : List (List ℝ)) (ldc : List ℝ) :
    Except EvalError (List (List ℝ) ⊕ List ℝ) :=
  match s.time with
  | none => .error .notConfigured
  | some t => .ok (squeeze (qmodel t pvp ldc))

/-- `QPower2Model.evaluate_ps` (lines 46-50): assert the time array is set,
wrap the scalar parameters as the singleton batch
`[[k, t0, p, a, i, e, w]]`, run the kernel, squeeze. -/
def QP2State.evaluate_ps
    (qmodel : List ℝ → List (List ℝ) → List ℝ → List (List ℝ))
    (s : QP2State) (k : ℝ) (ldc : List ℝ) (t0 p a i e w : ℝ) :
    Except EvalError (List (List ℝ) ⊕ List ℝ) :=
  match s.time with
  | none => .error .notConfigured
  | some t => .ok (squeeze (qmodel t [[k, t0, p, a, i, e, w]] ldc))

/-! ### Theorems -/

/-- C2 counterexample: the configuration naming the `interpolated_quadratic`
model with `nldc = 0` is accepted at construction, yet every evaluation
dispatches to the uniform-disk kernel (`__init__` line 55 sends any
`nldc == 0` configuration to `_eval_uniform` before looking at a
quadratic-family model name). -/
theorem C2_counterexample_iq_nldc0_uniform :
    (MandelAgol.init ⟨0, false, false, "interpolated_quadratic",
        (7/100, 13/100), 128, 256⟩).map MAState.effectiveKernel =
      .ok .uniform := by
  rfl

/-- C2 amended: evaluation of a constructed model dispatches to the kernel
determined by the configuration as follows: `chromosphere` gets the
chromosphere kernel; the `uniform` model name, or any configuration with
`nldc = 0`, gets the uniform-disk kernel; the remaining quadratic-family
configurations get the interpolating quadratic kernel when
`interpolate or lerp` was set and the exact quadratic kernel otherwise (so
`interpolated_quadratic` with `interpolate` unset is evaluated with the
exact kernel). -/
theorem C2_dispatch_characterization (cfg : MAConfig) (s : MAState)
    (h : MandelAgol.init cfg = .ok s) :
    s.effectiveKernel =
      (if cfg.model = "chromosphere" then .chromosphere
       else if cfg.model = "uniform" ∨ cfg.nldc = 0 then .uniform
       else if cfg.interpolate || cfg.lerp then .quadInterp
       else .quadExact) := by
  simp only [MandelAgol.init] at h
  by_cases h1 : cfg.model ∉ models
  · rw [if_pos h1] at h; cases h
  rw [if_neg h1] at h
  by_cases h2 : cfg.nldc ∉ ([0, 2] : List ℕ)
  · rw [if_pos h2] at h; cases h
  rw [if_neg h2] at h
  by_cases h3 : cfg.model = "chromosphere"
  · rw [if_pos h3] at h
    cases h
    simp [MAState.effectiveKernel, h3]
  rw [if_neg h3] at h
  by_cases h4 : cfg.model = "uniform" ∨ cfg.nldc = 0
  · rw [if_pos h4] at h
    cases h
    simp [MAState.effectiveKernel, h3, h4]
  rw [if_neg h4] at h
  cases h
  simp [MAState.effectiveKernel, h3, h4]

/-- C2 witness for the amended theorem: the default quadratic configuration
is constructed and evaluates with the exact quadratic kernel. -/
theorem C2_dispatch_witness :
    MAState.effectiveKernel ⟨false, .quadratic, none⟩ =
      (if defaultConfig.model = "chromosphere" then .chromosphere
       else if defaultConfig.model = "uniform" ∨ defaultConfig.nldc = 0 then .uniform
       else if defaultConfig.interpolate || defaultConfig.lerp then .quadInterp
       else .quadExact) :=
  C2_dispatch_characterization defaultConfig ⟨false, .quadratic, none⟩ (by rfl)

/-- C3: constructing with an unsupported model name fails with the
`unknownModel` error, and constructing with a supported name but a
limb-darkening coefficient count other than 0 or 2 fails with the distinct
`badLDCount` error; the two error kinds are distinguishable. -/
theorem C3_construction_fails_fast (cfg : MAConfig) :
    (cfg.model ∉ models →
      MandelAgol.init cfg = .error (.unknownModel cfg.model)) ∧
    (cfg.model ∈ models → cfg.nldc ≠ 0 → cfg.nldc ≠ 2 →
      MandelAgol.init cfg = .error (.badLDCount cfg.nldc)) ∧
    (∀ m n, ConfigError.unknownModel m ≠ ConfigError.badLDCount n) := by
  refine ⟨fun hm => ?_, fun hm h0 h2 => ?_, fun m n => by simp⟩
  · unfold MandelAgol.init
    rw [if_pos hm]
  · unfold MandelAgol.init
    rw [if_neg (by simpa using hm), if_pos (by simp [h0, h2])]

/-- C3 witness: a configuration with the unsupported model name `"linear"`
is rejected at construction with the `unknownModel` error. -/
theorem C3_construction_fails_fast_witness :
    MandelAgol.init ⟨2, false, false, "linear", (7/100, 13/100), 128, 256⟩ =
      .error (.unknownModel "linear") :=
  (C3_construction_fails_fast
    ⟨2, false, false, "linear", (7/100, 13/100), 128, 256⟩).1 (by decide)

/-- C5 counterexample: immediately after construction of an
`interpolated_quadratic` model — before any evaluation has happened — the
interpolation table is already built (`__init__` line 59 builds it
eagerly), refuting "built lazily at the first evaluation that requests
interpolation (not before)". -/
theorem C5_counterexample_table_built_at_init :
    MandelAgol.init ⟨2, false, false, "interpolated_quadratic",
        (7/100, 13/100), 128, 256⟩ =
      .ok ⟨false, .quadratic,
        some (calculate_interpolation_tables (7/100) (13/100) 128 256)⟩ := by
  rfl

/-- C5 amended: the interpolation table is built eagerly during
construction, exactly once, from the configured `(klims, nk, nz)`, if and
only if dispatch reaches the quadratic family (model not `chromosphere`,
not `uniform`, `nldc ≠ 0`) and interpolation is requested
(`interpolated_quadratic` model name, or the `interpolate` or `lerp`
flag); otherwise no table exists.  In this pure embedding evaluation
cannot modify the constructed state, so the table is immutable and every
later interpolating evaluation reuses it. -/
theorem C5_table_built_eagerly_at_init (cfg : MAConfig) (s : MAState)
    (h : MandelAgol.init cfg = .ok s) :
    s.table =
      (if cfg.model ≠ "chromosphere" ∧ ¬(cfg.model = "uniform" ∨ cfg.nldc = 0) ∧
          (cfg.model = "interpolated_quadratic" ∨ cfg.interpolate ∨ cfg.lerp)
       then some (calculate_interpolation_tables cfg.klims.1 cfg.klims.2 cfg.nk cfg.nz)
       else none) := by
  simp only [MandelAgol.init] at h
  by_cases h1 : cfg.model ∉ models
  · rw [if_pos h1] at h; cases h
  rw [if_neg h1] at h
  by_cases h2 : cfg.nldc ∉ ([0, 2] : List ℕ)
  · rw [if_pos h2] at h; cases h
  rw [if_neg h2] at h
  by_cases h3 : cfg.model = "chromosphere"
  · rw [if_pos h3] at h
    cases h
    simp [h3]
  rw [if_neg h3] at h
  by_cases h4 : cfg.model = "uniform" ∨ cfg.nldc = 0
  · rw [if_pos h4] at h
    cases h
    simp [h4]
  rw [if_neg h4] at h
  cases h
  simp [h3, h4, Bool.or_eq_true, or_assoc]

/-- C5 witness for the amended theorem: the default (non-interpolating)
quadratic configuration builds no table at construction. -/
theorem C5_table_witness :
    (none : Option InterpTable) =
      (if defaultConfig.model ≠ "chromosphere" ∧
          ¬(defaultConfig.model = "uniform" ∨ defaultConfig.nldc = 0) ∧
          (defaultConfig.model = "interpolated_quadratic" ∨
            defaultConfig.interpolate ∨ defaultConfig.lerp)
       then some (calculate_interpolation_tables defaultConfig.klims.1
              defaultConfig.klims.2 defaultConfig.nk defaultConfig.nz)
       else none) :=
  C5_table_built_eagerly_at_init defaultConfig ⟨false, .quadratic, none⟩ (by rfl)

/-- A zero interior function, used to instantiate abstract kernel interiors
in concrete evaluations. -/
def zeroInterior4 : ℝ → ℝ → ℝ → ℝ → ℝ := fun _ _ _ _ => 0

/-- A zero interior function of two arguments. -/
def zeroInterior2 : ℝ → ℝ → ℝ := fun _ _ => 0

/-- C1: for every model variant (uniform, quadratic, interpolated
quadratic, power-2, chromosphere) — whatever the interior branch
formulas are — and every contamination value `c`, the evaluated flux is
exactly `1` whenever `z ≥ 1 + k`, independent of the limb-darkening
coefficients. -/
theorem C1_flux_is_one_without_overlap
    (qi lu p2 : ℝ → ℝ → ℝ → ℝ → ℝ) (ch : ℝ → ℝ → ℝ)
    (z k u1 u2 c : ℝ) (h : 1 + k ≤ z) :
    uniformFlux z k c = 1 ∧
    quadFlux qi z k u1 u2 c = 1 ∧
    quadFluxInterp lu z k u1 u2 c = 1 ∧
    qpower2Flux p2 z k u1 u2 c = 1 ∧
    chromosphereFlux ch z k c = 1 := by
  have harea : circleOverlapArea k z = 0 := by
    rw [circleOverlapArea, if_pos h]
  have hclip : min (1 : ℝ) (max 0 (0 / Real.pi)) = 0 := by
    rw [zero_div, max_self]
    exact min_eq_right zero_le_one
  refine ⟨?_, ?_, ?_, ?_, ?_⟩
  · rw [uniformFlux, harea, hclip, applyContamination]; ring
  · rw [quadFlux, if_pos h, applyContamination]; ring
  · rw [quadFluxInterp, if_pos h, applyContamination]; ring
  · rw [qpower2Flux, if_pos h, applyContamination]; ring
  · rw [chromosphereFlux, if_pos h, applyContamination]; ring

/-- C1 witness: at `z = 3`, `k = 1`, `u = (3/10, 1/5)`, `c = 1/2`, every
kernel evaluates to exactly `1`. -/
theorem C1_flux_is_one_without_overlap_witness :
    uniformFlux 3 1 (1/2) = 1 ∧
    quadFlux zeroInterior4 3 1 (3/10) (1/5) (1/2) = 1 ∧
    quadFluxInterp zeroInterior4 3 1 (3/10) (1/5) (1/2) = 1 ∧
    qpower2Flux zeroInterior4 3 1 (3/10) (1/5) (1/2) = 1 ∧
    chromosphereFlux zeroInterior2 3 1 (1/2) = 1 :=
  C1_flux_is_one_without_overlap zeroInterior4 zeroInterior4 zeroInterior4
    zeroInterior2 3 1 (3/10) (1/5) (1/2) (by norm_num)

/-- C7: contamination is applied as the final affine step
`1 − (1 − flux_model) × (1 − c)`, so for fixed `(z, k, u)` the reported
flux of every model variant is monotonically non-decreasing in the
contamination factor `c` over `[0, 1)` (given the undiluted flux is at
most `1`), and strictly increasing whenever the undiluted flux is below
`1`. -/
theorem C7_contamination_monotone
    (qi lu p2 : ℝ → ℝ → ℝ → ℝ → ℝ) (ch : ℝ → ℝ → ℝ)
    (z k u1 u2 c1 c2 : ℝ)
    (hqi : qi z k u1 u2 ≤ 1) (hlu : lu z k u1 u2 ≤ 1)
    (hp2 : p2 z k u1 u2 ≤ 1) (hch : ch z k ≤ 1)
    (_hc0 : 0 ≤ c1) (hcle : c1 ≤ c2) (_hc1 : c2 < 1) :
    (∀ fm : ℝ, fm ≤ 1 → applyContamination c1 fm ≤ applyContamination c2 fm) ∧
    (∀ fm : ℝ, fm < 1 → c1 < c2 →
      applyContamination c1 fm < applyContamination c2 fm) ∧
    uniformFlux z k c1 ≤ uniformFlux z k c2 ∧
    quadFlux qi z k u1 u2 c1 ≤ quadFlux qi z k u1 u2 c2 ∧
    quadFluxInterp lu z k u1 u2 c1 ≤ quadFluxInterp lu z k u1 u2 c2 ∧
    qpower2Flux p2 z k u1 u2 c1 ≤ qpower2Flux p2 z k u1 u2 c2 ∧
    chromosphereFlux ch z k c1 ≤ chromosphereFlux ch z k c2 := by
  have mono : ∀ fm : ℝ, fm ≤ 1 →
      applyContamination c1 fm ≤ applyContamination c2 fm := by
    intro fm hfm
    rw [applyContamination, applyContamination]
    nlinarith [mul_nonneg (by linarith : (0:ℝ) ≤ 1 - fm)
      (by linarith : (0:ℝ) ≤ c2 - c1)]
  have strict : ∀ fm : ℝ, fm < 1 → c1 < c2 →
      applyContamination c1 fm < applyContamination c2 fm := by
    intro fm hfm hlt
    rw [applyContamination, applyContamination]
    nlinarith [mul_pos (by linarith : (0:ℝ) < 1 - fm)
      (by linarith : (0:ℝ) < c2 - c1)]
  have hsplit : ∀ v : ℝ, v ≤ 1 → (if 1 + k ≤ z then (1:ℝ) else v) ≤ 1 := by
    intro v hv
    split_ifs <;> simp [hv]
  refine ⟨mono, strict, ?_, ?_, ?_, ?_, ?_⟩
  · rw [uniformFlux, uniformFlux]
    refine mono _ ?_
    have h0 : (0:ℝ) ≤ min 1 (max 0 (circleOverlapArea k z / Real.pi)) :=
      le_min zero_le_one (le_max_left 0 _)
    linarith
  · exact mono _ (hsplit _ hqi)
  · exact mono _ (hsplit _ hlu)
  · exact mono _ (hsplit _ hp2)
  · exact mono _ (hsplit _ hch)

/-- C7 witness: at `z = 1/2`, `k = 1/10`, zero interiors, `c1 = 0`,
`c2 = 1/2`, contamination monotonicity holds for every kernel. -/
theorem C7_contamination_monotone_witness :
    (∀ fm : ℝ, fm ≤ 1 →
      applyContamination 0 fm ≤ applyContamination (1/2) fm) ∧
    (∀ fm : ℝ, fm < 1 → (0:ℝ) < 1/2 →
      applyContamination 0 fm < applyContamination (1/2) fm) ∧
    uniformFlux (1/2) (1/10) 0 ≤ uniformFlux (1/2) (1/10) (1/2) ∧
    quadFlux zeroInterior4 (1/2) (1/10) (3/10) (1/5) 0 ≤
      quadFlux zeroInterior4 (1/2) (1/10) (3/10) (1/5) (1/2) ∧
    quadFluxInterp zeroInterior4 (1/2) (1/10) (3/10) (1/5) 0 ≤
      quadFluxInterp zeroInterior4 (1/2) (1/10) (3/10) (1/5) (1/2) ∧
    qpower2Flux zeroInterior4 (1/2) (1/10) (3/10) (1/5) 0 ≤
      qpower2Flux zeroInterior4 (1/2) (1/10) (3/10) (1/5) (1/2) ∧
    chromosphereFlux zeroInterior2 (1/2) (1/10) 0 ≤
      chromosphereFlux zeroInterior2 (1/2) (1/10) (1/2) :=
  C7_contamination_monotone zeroInterior4 zeroInterior4 zeroInterior4
    zeroInterior2 (1/2) (1/10) (3/10) (1/5) 0 (1/2)
    (by norm_num [zeroInterior4]) (by norm_num [zeroInterior4])
    (by norm_num [zeroInterior4]) (by norm_num [zeroInterior2])
    le_rfl (by norm_num) (by norm_num)

/-- C8: supersampling with subsample count `n = 1` equals instantaneous
evaluation of the model at the exposure midpoint, for every model (as a
function of time) and every exposure duration. -/
theorem C8_supersampling_one_is_instantaneous (f : ℝ → ℝ) (t d : ℝ) :
    supersample f t d 1 = f t := by
  have htimes : subsampleTimes t d 1 = [t] := by
    simp [subsampleTimes, List.range_succ]
  rw [supersample, htimes]
  simp

/-- The bounded Kepler iteration either meets the residual tolerance or
spends its whole iteration budget, returning the last Newton iterate. -/
lemma keplerSolveAux_spec (M e tol : ℝ) :
    ∀ (n : ℕ) (E0 : ℝ),
      |keplerResidual M e (keplerSolveAux M e tol n E0)| ≤ tol ∨
        keplerSolveAux M e tol n E0 = (fun E => newtonStep M e E)^[n] E0 := by
  intro n
  induction n with
  | zero => exact fun E0 => Or.inr rfl
  | succ n ih =>
      intro E0
      rw [keplerSolveAux]
      by_cases hres : |keplerResidual M e E0| ≤ tol
      · rw [if_pos hres]
        exact Or.inl hres
      · rw [if_neg hres]
        rcases ih (newtonStep M e E0) with hok | hcap
        · exact Or.inl hok
        · refine Or.inr ?_
          rw [Function.iterate_succ_apply]
          exact hcap

/-- C9: for every mean anomaly `M` and eccentricity `e ∈ [0, 0.99]`, the
Kepler solver is a total function (it never raises): either its result `E`
satisfies the round-trip equation `|(E − e·sin E) − M| ≤ tol` for its
tolerance `1e-8`, or the iteration cap of 100 was exhausted and the solver
returned its last Newton iterate; moreover the Newton denominator
`1 − e·cos E` stays at least `1/100`, so every step is well defined. -/
theorem C9_kepler_round_trip (M e : ℝ) (he0 : 0 ≤ e) (he1 : e ≤ 99/100) :
    (|keplerResidual M e (keplerSolve M e)| ≤ 1 / 100000000 ∨
      keplerSolve M e = (fun E => newtonStep M e E)^[100] M) ∧
    (∀ E : ℝ, 1 / 100 ≤ 1 - e * Real.cos E) := by
  constructor
  · exact keplerSolveAux_spec M e (1 / 100000000) 100 M
  · intro E
    nlinarith [Real.cos_le_one E, Real.neg_one_le_cos E,
      mul_le_mul_of_nonneg_left (Real.cos_le_one E) he0]

/-- C9 witness: at `M = 0`, `e = 1/2` the solver's dichotomy and the
denominator bound hold. -/
theorem C9_kepler_round_trip_witness :
    (|keplerResidual 0 (1/2) (keplerSolve 0 (1/2))| ≤ 1 / 100000000 ∨
      keplerSolve 0 (1/2) = (fun E => newtonStep 0 (1/2) E)^[100] 0) ∧
    (∀ E : ℝ, 1 / 100 ≤ 1 - 1/2 * Real.cos E) :=
  C9_kepler_round_trip 0 (1/2) (by norm_num) (by norm_num)

/-- C4: calling `evaluate_ps` or `evaluate_pv` before the time array has
been set yields the distinguishable "not configured" error, whatever the
flux kernel would compute — no flux computation begins and no partial
result is returned. -/
theorem C4_not_configured_error
    (qmodel : List ℝ → List (List ℝ) → List ℝ → List (List ℝ))
    (s : QP2State) (k : ℝ) (ldc : List ℝ) (t0 p a i e w : ℝ)
    (pvp : List (List ℝ)) (h : s.time = none) :
    s.evaluate_ps qmodel k ldc t0 p a i e w = .error .notConfigured ∧
    s.evaluate_pv qmodel pvp ldc = .error .notConfigured := by
  constructor
  · rw [QP2State.evaluate_ps, h]
  · rw [QP2State.evaluate_pv, h]

/-- C4 witness: an unconfigured model rejects both entry points. -/
theorem C4_not_configured_error_witness :
    QP2State.evaluate_ps (fun _ _ _ => []) ⟨none⟩ 0 [] 0 0 0 0 0 0 =
      .error .notConfigured ∧
    QP2State.evaluate_pv (fun _ _ _ => []) ⟨none⟩ [[0]] [] =
      .error .notConfigured :=
  C4_not_configured_error (fun _ _ _ => []) ⟨none⟩ 0 [] 0 0 0 0 0 0 [[0]] rfl

/-- C10: once the time data is set, `evaluate_ps k ldc t0 p a i e w`
returns exactly what `evaluate_pv` returns on the singleton
parameter-vector batch `[[k, t0, p, a, i, e, w]]` with the same `ldc`
(both results squeezed the same way), for every flux kernel. -/
theorem C10_ps_equals_singleton_pv
    (qmodel : List ℝ → List (List ℝ) → List ℝ → List (List ℝ))
    (s : QP2State) (k : ℝ) (ldc : List ℝ) (t0 p a i e w : ℝ)
    (ts : List ℝ) (h : s.time = some ts) :
    s.evaluate_ps qmodel k ldc t0 p a i e w =
      s.evaluate_pv qmodel [[k, t0, p, a, i, e, w]] ldc := by
  rw [QP2State.evaluate_ps, QP2State.evaluate_pv, h]

/-- C10 witness: with time set to `[0]` and a constant kernel, the scalar
entry point agrees with the singleton-batch entry point. -/
theorem C10_ps_equals_singleton_pv_witness :
    QP2State.evaluate_ps (fun _ _ _ => [[1]]) ⟨some [0]⟩ 1 [] 0 3 7 2 0 0 =
      QP2State.evaluate_pv (fun _ _ _ => [[1]]) ⟨some [0]⟩
        [[1, 0, 3, 7, 2, 0, 0]] [] :=
  C10_ps_equals_singleton_pv (fun _ _ _ => [[1]]) ⟨some [0]⟩ 1 [] 0 3 7 2 0 0
    [0] rfl

end PyTransit
